import Mathlib

/-!
Shallow embedding of the school video-sharing backend.

The object-storage bucket is modelled as an association list from keys to
stored objects (`Store`).  Each asynchronous JS function over the bucket
becomes a pure Lean function; a function that can throw returns `Except`,
and a function that writes returns the updated store alongside its result.
JS `undefined` for an optional string value is modelled as `Option.none`;
interpolation of `undefined` into a template literal yields the string
"undefined" (`jsStr`).  Signed-URL generation is an external collaborator
and is abstracted as the deterministic tag `"signed:" ++ key`.

The definitions follow the current copy of the repository's db module
(the AWS SDK v3 version exporting `createUser`, `listUsers`, `readUser`,
`listVideos`, `updateUser`, `deleteUser`, `uploadVideo`) and the server's
`/upload` route handler.
-/

deriving instance DecidableEq for Except

/-- A stored user record, as produced by the `/register` route: the fields it
always sets are plain strings; `licenseKey` and `classCodesArray` are kept
optional so that records lacking them (JS `undefined`) are representable. -/
structure User where
  email : String
  firstName : String
  password : String
  accountType : String
  schoolName : String
  licenseKey : Option String
  classCodesArray : Option (List String)
  deriving DecidableEq

/-- A stored video metadata record.  Every field an arbitrary JSON object may
lack is optional; `viewed` is the boolean flag `uploadVideo` initialises to
`false`.  `fileId` is never written by `uploadVideo` but `deleteUser` reads
it, so it is carried as an optional field. -/
structure VideoMeta where
  title : Option String
  subject : Option String
  userId : Option String
  userEmail : Option String
  classCode : Option String
  contentType : Option String
  viewed : Bool
  schoolName : Option String
  accountType : Option String
  videoPath : Option String
  fileId : Option String
  deriving DecidableEq

/-- An object stored in the bucket: a user JSON record, a video metadata JSON
record, a binary payload (video bytes), or bytes that do not parse as JSON. -/
inductive Obj where
  | userObj (u : User)
  | videoMeta (m : VideoMeta)
  | blob
  | malformed
  deriving DecidableEq

/-- The bucket: an association list from keys to objects (first binding wins,
matching a key-value store; `putObj` keeps keys unique). -/
abbrev Store := List (String × Obj)

/-- `getObject` / `headObject`: first binding for the key, if any. -/
def lookupObj (store : Store) (k : String) : Option Obj :=
  (store.find? (fun kv => kv.1 == k)).map (fun kv => kv.2)

/-- `putObject`: replace any binding for the key with the new object. -/
def putObj (store : Store) (k : String) (o : Obj) : Store :=
  store.filter (fun kv => kv.1 != k) ++ [(k, o)]

/-- `deleteObject`: remove the binding for the key (succeeds even when the
key is absent, as in S3). -/
def deleteObj (store : Store) (k : String) : Store :=
  store.filter (fun kv => kv.1 != k)

/-- `listStarts s p`: the character list `s` begins with `p`. -/
def listStarts : List Char → List Char → Bool
  | _, [] => true
  | [], _ :: _ => false
  | c :: cs, d :: ds => c == d && listStarts cs ds

/-- `strStarts s p`: the string `s` begins with `p` (S3 prefix listing). -/
def strStarts (s p : String) : Bool :=
  listStarts s.data p.data

/-- `strEnds s p`: the string `s` ends with `p` (JS `endsWith`). -/
def strEnds (s p : String) : Bool :=
  listStarts s.data.reverse p.data.reverse

/-- `listObjectsV2` with a key filter: the bindings whose key begins with the
given listing filter string. -/
def objectsUnder (store : Store) (p : String) : Store :=
  store.filter (fun kv => strStarts kv.1 p)

/-- The key of a user record: `users/<email>.json`. -/
def userKey (email : String) : String :=
  "users/" ++ email ++ ".json"

/-- JS template-literal interpolation of a possibly-undefined string:
`undefined` prints as the string "undefined". -/
def jsStr : Option String → String
  | some s => s
  | none => "undefined"

/-- The in-memory table `licenseKeyLimits`: license key to maximum number of
accounts. -/
def licenseKeyLimits : List (String × Nat) :=
  [("BurnsideHighSchool", 4), ("MP003", 8), ("3399", 20),
   ("STUDENT_KEY_1", 10), ("TEACHER_KEY_2", 10)]

/-- The in-memory table `validLicenseKeys`: account type to the list of
license keys valid for it.  Any other account type has no entry, which in JS
is an `undefined` property read. -/
def validLicenseKeys (accountType : String) : Option (List String) :=
  if accountType = "student" then some ["STUDENT_KEY_1", "STUDENT_KEY_2"]
  else if accountType = "teacher" then some ["TEACHER_KEY_1", "TEACHER_KEY_2"]
  else none

/-- The raw lookup `licenseKeyLimits[licenseKey]` (an `undefined` key or a
key absent from the table reads as `undefined`). -/
def limitLookup (k : Option String) : Option Nat :=
  match k with
  | some s => (licenseKeyLimits.find? (fun kv => kv.1 == s)).map (fun kv => kv.2)
  | none => none

/-- `licenseKeyLimits[licenseKey] || 0`: the configured limit, defaulting to
0 for a key absent from the table. -/
def limitFor (k : Option String) : Nat :=
  (limitLookup k).getD 0

/-- `allowed.includes(licenseKey)`: false when the license key is `undefined`
(JS `includes` never matches `undefined` in a list of strings). -/
def keyAllowed (allowed : List String) (k : Option String) : Bool :=
  match k with
  | some s => allowed.contains s
  | none => false

/-- Deserialisation of one listed record inside `listUsers`: a JSON user
record additionally needs truthy `email`, `firstName` and `accountType`
fields, otherwise the whole listing fails (`Invalid user data format`); bytes
that are not a JSON user record fail the same way (JSON parse failure or a
missing required field). -/
def parseUser (o : Obj) : Except String User :=
  match o with
  | Obj.userObj u =>
      if u.email ≠ "" ∧ u.firstName ≠ "" ∧ u.accountType ≠ "" then Except.ok u
      else Except.error "Invalid user data format"
  | _ => Except.error "Invalid user data format"

/-- `listUsers`: list every object under `users/` and deserialise each;
any bad record poisons the whole listing. -/
def listUsers (store : Store) : Except String (List User) :=
  (objectsUnder store "users/").mapM (fun kv => parseUser kv.2)

/-- The distinct failure causes inside the `try` block of `createUser`.
`invalidAccountType` is the JS `TypeError` from reading `.includes` of the
`undefined` entry `validLicenseKeys[accountType]`; `listUsersFailed` is a
failure propagated out of `listUsers`. -/
inductive RegError where
  | duplicateEmail
  | invalidAccountType
  | invalidLicenseKey
  | listUsersFailed
  | licenseLimitReached
  deriving DecidableEq

/-- The `try` block of `createUser`: email-uniqueness check, license-key
validity check for the account type, license-key count-versus-limit check,
then the single write of the full user record. -/
def createUserAttempt (userData : User) (store : Store) : Except RegError (User × Store) :=
  if (lookupObj store (userKey userData.email)).isSome then
    Except.error RegError.duplicateEmail
  else
    match validLicenseKeys userData.accountType with
    | none => Except.error RegError.invalidAccountType
    | some allowed =>
      if keyAllowed allowed userData.licenseKey then
        match listUsers store with
        | Except.error _ => Except.error RegError.listUsersFailed
        | Except.ok users =>
          let licenseKeyCount := (users.filter (fun w => w.licenseKey == userData.licenseKey)).length
          if licenseKeyCount ≥ limitFor userData.licenseKey then
            Except.error RegError.licenseLimitReached
          else
            Except.ok (userData, putObj store (userKey userData.email) (Obj.userObj userData))
      else Except.error RegError.invalidLicenseKey

/-- `createUser`: the `try` block above with its `catch`, which logs and
rethrows every failure as the single generic `Failed to register user`.
On failure no write has happened, so the store is returned unchanged. -/
def createUser (userData : User) (store : Store) : Except String User × Store :=
  match createUserAttempt userData store with
  | Except.ok (u, s) => (Except.ok u, s)
  | Except.error _ => (Except.error "Failed to register user", store)

/-- One row of the list returned by `listVideos`: the parsed metadata spread
together with the derived fields (`videoUrl`, `videoKey`, `mimeType`,
`metadataKey`) the function attaches. -/
structure VideoEntry where
  meta : VideoMeta
  videoUrl : String
  videoKey : Option String
  mimeType : String
  metadataKey : String
  deriving DecidableEq

/-- `JSON.parse` of a listed metadata object, as used inside `listVideos`:
only a video metadata record parses into the fields the function reads; any
other object either fails to parse or parses to JSON whose `videoPath` is
`undefined`, which the payload-existence check below then skips — the same
observable outcome, so both are modelled as a failed parse. -/
def parseVideoMeta (o : Obj) : Option VideoMeta :=
  match o with
  | Obj.videoMeta m => some m
  | _ => none

/-- `classCodes.includes(metadata.classCode)`: false when the metadata has no
`classCode` field. -/
def includesClassCode (classCodes : List String) (c : Option String) : Bool :=
  match c with
  | some s => classCodes.contains s
  | none => false

/-- The per-item body of the `Promise.all` map inside `listVideos`: skip
non-`.json` keys; skip items whose bytes do not parse as metadata; for a
teacher, drop items whose school does not match or whose class code is not in
the caller's list; skip the item when the referenced payload object is absent
(a `HeadObject` on the `videoPath` key, which fails outright when `videoPath`
is `undefined`); otherwise build the enriched row.  The `HeadObject` on the
metadata key itself always succeeds here because the item was just listed. -/
def processVideoItem (store : Store) (accountType schoolName : Option String)
    (classCodes : List String) (item : String × Obj) : Option VideoEntry :=
  if strEnds item.1 ".json" then
    match parseVideoMeta item.2 with
    | some m =>
      if accountType = some "teacher" ∧
          (m.schoolName ≠ schoolName ∨ includesClassCode classCodes m.classCode = false) then
        none
      else
        match m.videoPath with
        | some vkey =>
          if (lookupObj store vkey).isSome then
            some { meta := m
                   videoUrl := "signed:" ++ vkey
                   videoKey := some vkey
                   mimeType := m.contentType.getD "video/mp4"
                   metadataKey := item.1 }
          else none
        | none => none
    | none => none
  else none

/-- The `try` block of `listVideos`: reject an account type other than
`student` or `teacher` (including the `undefined` passed by one-argument
call sites); otherwise list the role-dependent metadata namespace — the whole
school for a teacher, the caller's own sub-namespace for a student — and keep
the items the per-item body accepts. -/
def listVideosBody (store : Store) (userEmail : String) (accountType schoolName : Option String)
    (classCodes : List String) : Except String (List VideoEntry) :=
  if accountType = some "student" ∨ accountType = some "teacher" then
    let metaPref :=
      if accountType = some "teacher" then
        "videos/" ++ jsStr schoolName ++ "/"
      else
        "videos/" ++ jsStr schoolName ++ "/" ++ userEmail ++ "/"
    Except.ok ((objectsUnder store metaPref).filterMap
      (processVideoItem store accountType schoolName classCodes))
  else
    Except.error "Invalid account type"

/-- `listVideos`: the body above with its `catch`, which swallows any failure
into the empty list. -/
def listVideos (store : Store) (userEmail : String) (accountType schoolName : Option String)
    (classCodes : List String) : List VideoEntry :=
  match listVideosBody store userEmail accountType schoolName classCodes with
  | Except.ok l => l
  | Except.error _ => []

/-- `readUser`: fetch and deserialise the user record (any absence, parse
failure or missing required field collapses to `User not found` via the
`catch`), then fetch the user's videos with the user's own account type,
school and class codes. -/
def readUser (email : String) (store : Store) : Except String (User × List VideoEntry) :=
  match lookupObj store (userKey email) with
  | some (Obj.userObj u) =>
      if u.email ≠ "" ∧ u.firstName ≠ "" ∧ u.accountType ≠ "" then
        Except.ok (u, listVideos store u.email (some u.accountType) (some u.schoolName)
          (u.classCodesArray.getD []))
      else Except.error "User not found"
  | _ => Except.error "User not found"

/-- `updateUser`: load the user record, mutate `classCodesArray` — `add`
appends the class code unconditionally (creating the array if absent),
`delete` removes every element equal to it, failing when it is absent —
then write the whole record back.  All failures are rethrown raw.  A stored
record under the user key that parses as JSON of a different shape is not
representable in this embedding and is mapped to an error. -/
def updateUser (email : String) (classCode : String) (action : String) (store : Store) :
    Except String String × Store :=
  match lookupObj store (userKey email) with
  | some (Obj.userObj user) =>
      if action = "add" then
        let user' := { user with classCodesArray := some (user.classCodesArray.getD [] ++ [classCode]) }
        (Except.ok "Class code added successfully!",
         putObj store (userKey email) (Obj.userObj user'))
      else if action = "delete" then
        match user.classCodesArray with
        | some arr =>
          if arr.contains classCode then
            let user' := { user with classCodesArray := some (arr.filter (fun code => code != classCode)) }
            (Except.ok "Class code deleted successfully!",
             putObj store (userKey email) (Obj.userObj user'))
          else (Except.error "Class code does not exist", store)
        | none => (Except.error "TypeError: classCodesArray is undefined", store)
      else (Except.error "Invalid action. Use add or delete.", store)
  | some Obj.malformed => (Except.error "JSON parse failure", store)
  | some _ => (Except.error "record under user key is not a user record", store)
  | none => (Except.error "NoSuchKey", store)

/-- `deleteUser`: delete the user record, then list the user's videos — a
call of `listVideos` with only the email argument, so `accountType` is
`undefined` — and delete each listed video under `videos/<email>/<fileId>`.
Returns `{ deleted: true }`. -/
def deleteUser (email : String) (store : Store) : Except String Bool × Store :=
  let store1 := deleteObj store (userKey email)
  let videos := listVideos store1 email none none []
  let store2 := videos.foldl
    (fun s v => deleteObj s ("videos/" ++ email ++ "/" ++ jsStr v.meta.fileId)) store1
  (Except.ok true, store2)

/-- The argument record the `/upload` route assembles for `uploadVideo`
(binary buffer and display-only fields abstracted away). -/
structure VideoData where
  title : String
  subject : String
  userId : String
  userEmail : String
  classCode : String
  accountType : String
  schoolName : String
  mimetype : String
  deriving DecidableEq

/-- The value `uploadVideo` returns.  The SDK v3 `PutObject` response has no
`Key` field, so `fileId` and `filename` read as `undefined`. -/
structure UploadResult where
  fileId : Option String
  filename : Option String
  metadata : VideoMeta
  deriving DecidableEq

/-- `uploadVideo`: build the student path (`videoPath` stays `undefined` for
any other account type, so its interpolation below prints "undefined"),
assemble the metadata record, write the metadata object (the source sends the
metadata `PutObject` twice — an identical overwrite), then write the binary
payload object. -/
def uploadVideo (videoData : VideoData) (store : Store) : Except String UploadResult × Store :=
  let videoPath : Option String :=
    if videoData.accountType = "student" then
      some ("videos/" ++ videoData.schoolName ++ "/" ++ videoData.classCode ++ "/" ++
        videoData.userEmail ++ "/" ++ videoData.title)
    else none
  let metadata : VideoMeta :=
    { title := some videoData.title
      subject := some videoData.subject
      userId := some videoData.userId
      userEmail := some videoData.userEmail
      classCode := some videoData.classCode
      contentType := some videoData.mimetype
      viewed := false
      schoolName := some videoData.schoolName
      accountType := some videoData.accountType
      videoPath := some (jsStr videoPath ++ ".mp4")
      fileId := none }
  let metaKey := jsStr videoPath ++ ".json"
  let payloadKey := jsStr videoPath ++ ".mp4"
  let store1 := putObj store metaKey (Obj.videoMeta metadata)
  let store2 := putObj store1 metaKey (Obj.videoMeta metadata)
  let store3 := putObj store2 payloadKey Obj.blob
  (Except.ok { fileId := none, filename := none, metadata := metadata }, store3)

/-- The request fields the `/upload` route reads (file buffer abstracted). -/
structure UploadReq where
  email : String
  title : String
  subject : String
  classCode : String
  mimetype : String
  deriving DecidableEq

/-- The observable outcome of an HTTP route handler. -/
inductive HttpResponse where
  | redirectTo (loc : String)
  | badRequest (msg : String)
  | notFound (msg : String)
  | serverError (msg : String)
  deriving DecidableEq

/-- The `/upload` route handler: read the user (failure becomes the 500
`Failed to upload video` response), scan the user's existing videos for one
with the same title and class code — a call of `listVideos` with only the
email argument — reject with 400 when found, otherwise upload and redirect. -/
def uploadHandler (req : UploadReq) (store : Store) : HttpResponse × Store :=
  match readUser req.email store with
  | Except.error _ => (HttpResponse.serverError "Failed to upload video", store)
  | Except.ok (user, _) =>
    let videoData : VideoData :=
      { title := req.title
        subject := req.subject
        userId := user.email
        userEmail := user.email
        classCode := req.classCode
        accountType := user.accountType
        schoolName := user.schoolName
        mimetype := req.mimetype }
    let videos := listVideos store user.email none none []
    match videos.find? (fun v => v.meta.title == some req.title && v.meta.classCode == some req.classCode) with
    | some _ => (HttpResponse.badRequest "A video with the same title and class code already exists", store)
    | none =>
      match uploadVideo videoData store with
      | (Except.ok _, store') => (HttpResponse.redirectTo "/upload-.html", store')
      | (Except.error _, store') => (HttpResponse.serverError "Failed to upload video", store')

/-- Sample student: valid license key with a configured limit. -/
def bobUser : User :=
  { email := "bob@x.com", firstName := "Bob", password := "h", accountType := "student",
    schoolName := "Burnside", licenseKey := some "STUDENT_KEY_1", classCodesArray := some ["7A"] }

/-- Sample student with a license key outside the student allowed set. -/
def badKeyU : User :=
  { bobUser with licenseKey := some "WRONG" }

/-- Sample student whose license key is allowed but absent from the limit
table (so its limit defaults to 0). -/
def limitU : User :=
  { bobUser with licenseKey := some "STUDENT_KEY_2" }

/-- Sample student registering with license key "3399". -/
def student3399 : User :=
  { bobUser with licenseKey := some "3399" }

/-- Sample teacher registering with license key "3399". -/
def teacher3399 : User :=
  { email := "t@x.com", firstName := "Tia", password := "h", accountType := "teacher",
    schoolName := "Burnside", licenseKey := some "3399", classCodesArray := some [] }

/-- Sample user with an account type that has no entry in
`validLicenseKeys`. -/
def adminU : User :=
  { bobUser with accountType := "admin" }

/-- A store holding only `bobUser`'s record. -/
def dupStore : Store :=
  [(userKey "bob@x.com", Obj.userObj bobUser)]

/-- Sample stored user owning one video, for the cascade-delete and
duplicate-upload scenarios. -/
def annUser : User :=
  { email := "a@b.com", firstName := "Ann", password := "h", accountType := "student",
    schoolName := "Sch", licenseKey := some "STUDENT_KEY_1", classCodesArray := some ["7A"] }

/-- Metadata of `annUser`'s stored video, at the path `uploadVideo` builds
for a student. -/
def annMeta : VideoMeta :=
  { title := some "Lab1", subject := some "Sci", userId := some "a@b.com",
    userEmail := some "a@b.com", classCode := some "7A", contentType := some "video/mp4",
    viewed := false, schoolName := some "Sch", accountType := some "student",
    videoPath := some "videos/Sch/7A/a@b.com/Lab1.mp4", fileId := none }

/-- A store holding `annUser`'s record and one fully-written video
(metadata and payload) owned by `a@b.com`. -/
def annStore : Store :=
  [(userKey "a@b.com", Obj.userObj annUser),
   ("videos/Sch/7A/a@b.com/Lab1.json", Obj.videoMeta annMeta),
   ("videos/Sch/7A/a@b.com/Lab1.mp4", Obj.blob)]

/-- A second upload request for `annUser` with the title and class code of
the already-stored video (different subject). -/
def annReq : UploadReq :=
  { email := "a@b.com", title := "Lab1", subject := "S2", classCode := "7A",
    mimetype := "video/mp4" }

/-- A store holding only `annUser`'s record (for class-code round trips). -/
def annOnlyStore : Store :=
  [(userKey "a@b.com", Obj.userObj annUser)]

/-- Metadata under the student listing namespace `videos/Sch/a@b.com/`,
whose payload object exists. -/
def listedMeta : VideoMeta :=
  { annMeta with userEmail := some "a@b.com" }

/-- A store where the student listing namespace holds one good metadata
record (payload present), one dangling metadata record (payload absent), and
one object that does not parse, so listing surfaces exactly one entry. -/
def mixedStore : Store :=
  [("videos/Sch/a@b.com/Lab1.json", Obj.videoMeta listedMeta),
   ("videos/Sch/7A/a@b.com/Lab1.mp4", Obj.blob),
   ("videos/Sch/a@b.com/Dangling.json",
    Obj.videoMeta { listedMeta with videoPath := some "videos/Sch/7A/a@b.com/Missing.mp4" }),
   ("videos/Sch/a@b.com/Broken.json", Obj.malformed)]

/-- The entry `listVideos` surfaces from `mixedStore`. -/
def mixedEntry : VideoEntry :=
  { meta := listedMeta, videoUrl := "signed:videos/Sch/7A/a@b.com/Lab1.mp4",
    videoKey := some "videos/Sch/7A/a@b.com/Lab1.mp4", mimeType := "video/mp4",
    metadataKey := "videos/Sch/a@b.com/Lab1.json" }

theorem createUser_of_attempt_error (userData : User) (store : Store) (e : RegError)
    (h : createUserAttempt userData store = Except.error e) :
    createUser userData store = (Except.error "Failed to register user", store) := by
  unfold createUser
  rw [h]

theorem createUserAttempt_ok_inv (userData : User) (store : Store) (p : User × Store)
    (h : createUserAttempt userData store = Except.ok p) :
    (lookupObj store (userKey userData.email)).isSome = false ∧
    (∃ allowed, validLicenseKeys userData.accountType = some allowed ∧
      keyAllowed allowed userData.licenseKey = true) ∧
    (∃ users, listUsers store = Except.ok users ∧
      (users.filter (fun w => w.licenseKey == userData.licenseKey)).length <
        limitFor userData.licenseKey) ∧
    p = (userData, putObj store (userKey userData.email) (Obj.userObj userData)) := by
  unfold createUserAttempt at h
  split at h
  · exact absurd h (by simp)
  · rename_i hdup
    split at h
    · exact absurd h (by simp)
    · rename_i allowed hV
      split at h
      · rename_i hKey
        split at h
        · exact absurd h (by simp)
        · rename_i users hUsers
          dsimp only at h
          split at h
          · exact absurd h (by simp)
          · rename_i hCount
            refine ⟨by simpa using hdup, ⟨allowed, hV, hKey⟩, ⟨users, hUsers, ?_⟩, by
              injection h with h'; rw [h']⟩
            exact Nat.lt_of_not_le (fun hle => hCount hle)
      · exact absurd h (by simp)

theorem lookupObj_putObj (store : Store) (k : String) (o : Obj) :
    lookupObj (putObj store k o) k = some o := by
  unfold lookupObj putObj
  rw [List.find?_append, List.find?_eq_none.mpr ?_]
  · simp [List.find?]
  · intro x hx
    simp only [List.mem_filter] at hx
    simpa using hx.2

theorem mem_listVideos_inv (store : Store) (userEmail : String)
    (accountType schoolName : Option String) (classCodes : List String) (v : VideoEntry)
    (hv : v ∈ listVideos store userEmail accountType schoolName classCodes) :
    ∃ item, item ∈ store ∧ processVideoItem store accountType schoolName classCodes item = some v := by
  unfold listVideos at hv
  split at hv
  · rename_i l hl
    unfold listVideosBody at hl
    split at hl
    · injection hl with hl'
      rw [← hl'] at hv
      obtain ⟨item, hitem, hp⟩ := List.mem_filterMap.mp hv
      exact ⟨item, (List.mem_filter.mp hitem).1, hp⟩
    · exact absurd hl (by simp)
  · exact absurd hv (by simp)

theorem processVideoItem_some_inv (store : Store) (accountType schoolName : Option String)
    (classCodes : List String) (item : String × Obj) (v : VideoEntry)
    (h : processVideoItem store accountType schoolName classCodes item = some v) :
    (parseVideoMeta item.2).isSome = true ∧ v.metadataKey = item.1 ∧
    ∃ k, v.videoKey = some k ∧ (lookupObj store k).isSome = true := by
  unfold processVideoItem at h
  split at h
  · split at h
    · rename_i m hm
      split at h
      · exact absurd h (by simp)
      · split at h
        · rename_i vkey hvk
          split at h
          · rename_i hlook
            injection h with h'
            exact ⟨by rw [hm]; rfl, by rw [← h'], vkey, by rw [← h'], hlook⟩
          · exact absurd h (by simp)
        · exact absurd h (by simp)
    · exact absurd h (by simp)
  · exact absurd h (by simp)

/-- C1: `createUser` succeeds only if the license key is in the account
type's allowed set and the number of stored users with that key is strictly
below the key's configured limit; on success the full user object is
persisted verbatim under `users/<email>.json` and returned.  Second
conjunct: a key absent from the limit table has limit 0, so registration
with it can never succeed. -/
theorem createUser_success_requirements :
    (∀ (store : Store) (u r : User) (s' : Store),
      createUser u store = (Except.ok r, s') →
      (∃ allowed, validLicenseKeys u.accountType = some allowed ∧
        keyAllowed allowed u.licenseKey = true) ∧
      (∃ users, listUsers store = Except.ok users ∧
        (users.filter (fun w => w.licenseKey == u.licenseKey)).length < limitFor u.licenseKey) ∧
      r = u ∧ s' = putObj store (userKey u.email) (Obj.userObj u)) ∧
    (∀ (store : Store) (u r : User) (s' : Store),
      limitLookup u.licenseKey = none →
      createUser u store ≠ (Except.ok r, s')) := by
  have main : ∀ (store : Store) (u r : User) (s' : Store),
      createUser u store = (Except.ok r, s') →
      (∃ allowed, validLicenseKeys u.accountType = some allowed ∧
        keyAllowed allowed u.licenseKey = true) ∧
      (∃ users, listUsers store = Except.ok users ∧
        (users.filter (fun w => w.licenseKey == u.licenseKey)).length < limitFor u.licenseKey) ∧
      r = u ∧ s' = putObj store (userKey u.email) (Obj.userObj u) := by
    intro store u r s' h
    unfold createUser at h
    split at h
    · rename_i a b hab
      obtain ⟨-, hkey, hcount, hpp⟩ := createUserAttempt_ok_inv u store (a, b) hab
      rw [Prod.mk.injEq] at h hpp
      obtain ⟨har, hbs⟩ := h
      obtain ⟨hau, hbp⟩ := hpp
      have har' : a = r := by injection har
      exact ⟨hkey, hcount, by rw [← har', hau], by rw [← hbs, hbp]⟩
    · exact absurd h (by simp)
  refine ⟨main, ?_⟩
  intro store u r s' hnone h
  obtain ⟨-, ⟨users, -, hlt⟩, -, -⟩ := main store u r s' h
  rw [limitFor, hnone] at hlt
  exact Nat.not_lt_zero _ hlt

/-- Witness for C1: on the empty store, registering `bobUser` (student,
key `STUDENT_KEY_1`, limit 10) succeeds, so the success conditions hold
there; and `limitU`, whose allowed key `STUDENT_KEY_2` is absent from the
limit table, can never register. -/
theorem createUser_success_requirements_witness :
    ((∃ allowed, validLicenseKeys bobUser.accountType = some allowed ∧
        keyAllowed allowed bobUser.licenseKey = true) ∧
      (∃ users, listUsers ([] : Store) = Except.ok users ∧
        (users.filter (fun w => w.licenseKey == bobUser.licenseKey)).length <
          limitFor bobUser.licenseKey) ∧
      bobUser = bobUser ∧
      putObj [] (userKey bobUser.email) (Obj.userObj bobUser) =
        putObj [] (userKey bobUser.email) (Obj.userObj bobUser)) ∧
    createUser limitU [] ≠
      (Except.ok limitU, putObj [] (userKey limitU.email) (Obj.userObj limitU)) :=
  ⟨createUser_success_requirements.1 [] bobUser bobUser
      (putObj [] (userKey bobUser.email) (Obj.userObj bobUser)) (by decide),
   createUser_success_requirements.2 [] limitU limitU
      (putObj [] (userKey limitU.email) (Obj.userObj limitU)) (by decide)⟩

/-- C2 counterexample: three different registration failures — duplicate
email, license key outside the allowed set, and license limit reached — all
reach the caller as the one generic error `Failed to register user`; the
caller cannot distinguish them even though the `try` block raised three
distinct errors. -/
theorem createUser_errors_indistinguishable :
    createUserAttempt bobUser dupStore = Except.error RegError.duplicateEmail ∧
    createUserAttempt badKeyU [] = Except.error RegError.invalidLicenseKey ∧
    createUserAttempt limitU [] = Except.error RegError.licenseLimitReached ∧
    (createUser bobUser dupStore).1 = Except.error "Failed to register user" ∧
    (createUser badKeyU []).1 = Except.error "Failed to register user" ∧
    (createUser limitU []).1 = Except.error "Failed to register user" := by decide

/-- C2 amended: inside its `try` block `createUser` raises three distinct
errors — duplicate email, invalid license key for the account type, and
license limit reached, in that check order — but its `catch` wraps every
failure into the single generic `Failed to register user`, so the caller
sees one collapsed failure kind (and no write has occurred). -/
theorem createUser_error_kinds_collapse :
    (∀ (store : Store) (u : User),
      (lookupObj store (userKey u.email)).isSome = true →
      createUserAttempt u store = Except.error RegError.duplicateEmail) ∧
    (∀ (store : Store) (u : User) (allowed : List String),
      (lookupObj store (userKey u.email)).isSome = false →
      validLicenseKeys u.accountType = some allowed →
      keyAllowed allowed u.licenseKey = false →
      createUserAttempt u store = Except.error RegError.invalidLicenseKey) ∧
    (∀ (store : Store) (u : User) (allowed : List String) (users : List User),
      (lookupObj store (userKey u.email)).isSome = false →
      validLicenseKeys u.accountType = some allowed →
      keyAllowed allowed u.licenseKey = true →
      listUsers store = Except.ok users →
      limitFor u.licenseKey ≤ (users.filter (fun w => w.licenseKey == u.licenseKey)).length →
      createUserAttempt u store = Except.error RegError.licenseLimitReached) ∧
    (∀ (store : Store) (u : User) (e : RegError),
      createUserAttempt u store = Except.error e →
      createUser u store = (Except.error "Failed to register user", store)) := by
  refine ⟨?_, ?_, ?_, ?_⟩
  · intro store u hdup
    unfold createUserAttempt
    rw [if_pos hdup]
  · intro store u allowed hdup hV hkey
    unfold createUserAttempt
    rw [if_neg (by simp [hdup]), hV]
    dsimp only
    rw [if_neg (by simp [hkey])]
  · intro store u allowed users hdup hV hkey hUsers hle
    unfold createUserAttempt
    rw [if_neg (by simp [hdup]), hV]
    dsimp only
    rw [if_pos hkey, hUsers]
    dsimp only
    rw [if_pos hle]
  · intro store u e h
    exact createUser_of_attempt_error u store e h

/-- Witness for C2 amended: each internal error kind at a concrete input,
and the collapse at one of them. -/
theorem createUser_error_kinds_collapse_witness :
    createUserAttempt adminU dupStore = Except.error RegError.duplicateEmail ∧
    createUserAttempt badKeyU [] = Except.error RegError.invalidLicenseKey ∧
    createUserAttempt limitU [] = Except.error RegError.licenseLimitReached ∧
    createUser limitU [] = (Except.error "Failed to register user", []) :=
  ⟨createUser_error_kinds_collapse.1 dupStore adminU (by decide),
   createUser_error_kinds_collapse.2.1 [] badKeyU
      ["STUDENT_KEY_1", "STUDENT_KEY_2"] (by decide) (by decide) (by decide),
   createUser_error_kinds_collapse.2.2.1 [] limitU
      ["STUDENT_KEY_1", "STUDENT_KEY_2"] [] (by decide) (by decide) (by decide)
      (by decide) (by decide),
   createUser_error_kinds_collapse.2.2.2 [] limitU RegError.licenseLimitReached
      (by decide)⟩

/-- C3 counterexample: license key "3399" has configured limit 20, yet
already the first registration attempt with it fails — for a student and
for a teacher alike — and with the invalid-license-key error, not the
limit error: "3399" is in no account type's allowed set, so the count
check is never reached. -/
theorem key3399_first_attempt_fails :
    limitFor (some "3399") = 20 ∧
    createUser student3399 [] = (Except.error "Failed to register user", []) ∧
    createUserAttempt student3399 [] = Except.error RegError.invalidLicenseKey ∧
    createUser teacher3399 [] = (Except.error "Failed to register user", []) ∧
    createUserAttempt teacher3399 [] = Except.error RegError.invalidLicenseKey := by decide

/-- C3 amended: license key "3399" carries limit 20 in the limit table, but
it is not in any account type's allowed set, so every registration attempt
with it fails (surfaced as the generic registration failure, with no write)
before the count-versus-limit check; no attempt with that key ever
succeeds. -/
theorem key3399_never_succeeds (store : Store) (u : User)
    (h : u.licenseKey = some "3399") :
    createUser u store = (Except.error "Failed to register user", store) := by
  cases hA : createUserAttempt u store with
  | error e => exact createUser_of_attempt_error u store e hA
  | ok p =>
    exfalso
    obtain ⟨-, ⟨allowed, hV, hkey⟩, -, -⟩ := createUserAttempt_ok_inv u store p hA
    rw [h] at hkey
    unfold validLicenseKeys at hV
    split at hV
    · injection hV with hV'
      rw [← hV'] at hkey
      exact absurd hkey (by decide)
    · split at hV
      · injection hV with hV'
        rw [← hV'] at hkey
        exact absurd hkey (by decide)
      · cases hV

/-- Witness for C3 amended: a teacher using key "3399" on a nonempty store
fails with the generic registration error and writes nothing. -/
theorem key3399_never_succeeds_witness :
    createUser teacher3399 dupStore = (Except.error "Failed to register user", dupStore) :=
  key3399_never_succeeds dupStore teacher3399 (by decide)

/-- C9: for an account type that is neither `student` nor `teacher`, the
`undefined` table lookup makes the `try` block throw, the `catch` surfaces
the generic per-operation registration failure (not a raw lookup error),
and the store is returned unchanged — no `users/<email>.json` object is
written. -/
theorem createUser_unknown_account_type (store : Store) (u : User)
    (h1 : u.accountType ≠ "student") (h2 : u.accountType ≠ "teacher") :
    createUser u store = (Except.error "Failed to register user", store) := by
  cases hA : createUserAttempt u store with
  | error e => exact createUser_of_attempt_error u store e hA
  | ok p =>
    exfalso
    obtain ⟨-, ⟨allowed, hV, -⟩, -, -⟩ := createUserAttempt_ok_inv u store p hA
    unfold validLicenseKeys at hV
    rw [if_neg h1, if_neg h2] at hV
    cases hV

/-- Witness for C9: registering with account type "admin" fails with the
generic registration error and leaves the store unchanged. -/
theorem createUser_unknown_account_type_witness :
    createUser adminU dupStore = (Except.error "Failed to register user", dupStore) :=
  createUser_unknown_account_type dupStore adminU (by decide) (by decide)

/-- C4 (code defect, evaluated at the failing input): `deleteUser` removes
the user record but leaves every video owned by the user in the store.  Its
internal `listVideos` call passes only the email, so `accountType` is
`undefined`; the listing throws `Invalid account type` into its own catch
and returns the empty list (last conjunct), and the per-video deletion loop
runs zero times.  A subsequent `readUser` does fail with `User not found`,
but both the metadata and the payload object of the user's video remain. -/
theorem deleteUser_leaves_owned_videos :
    (deleteUser "a@b.com" annStore).2 =
      [("videos/Sch/7A/a@b.com/Lab1.json", Obj.videoMeta annMeta),
       ("videos/Sch/7A/a@b.com/Lab1.mp4", Obj.blob)] ∧
    lookupObj (deleteUser "a@b.com" annStore).2 "videos/Sch/7A/a@b.com/Lab1.mp4" =
      some Obj.blob ∧
    lookupObj (deleteUser "a@b.com" annStore).2 "videos/Sch/7A/a@b.com/Lab1.json" =
      some (Obj.videoMeta annMeta) ∧
    readUser "a@b.com" (deleteUser "a@b.com" annStore).2 = Except.error "User not found" ∧
    listVideos (deleteObj annStore (userKey "a@b.com")) "a@b.com" none none [] = [] := by decide

/-- C5 (code defect, evaluated at the failing input): a second upload with
the title and class code of an already-stored video is not rejected — the
handler answers with the success redirect, not the duplicate-rejection 400,
and the store is written (the stored metadata object changes).  The
duplicate scan calls `listVideos` with only the email, so `accountType` is
`undefined` and the scanned list is always empty (last conjunct). -/
theorem duplicate_upload_not_rejected :
    (uploadHandler annReq annStore).1 = HttpResponse.redirectTo "/upload-.html" ∧
    (uploadHandler annReq annStore).1 ≠
      HttpResponse.badRequest "A video with the same title and class code already exists" ∧
    lookupObj (uploadHandler annReq annStore).2 "videos/Sch/7A/a@b.com/Lab1.json" ≠
      lookupObj annStore "videos/Sch/7A/a@b.com/Lab1.json" ∧
    listVideos annStore "a@b.com" none none [] = [] := by decide

/-- C6: every entry `listVideos` returns carries a `videoKey` (the
metadata's `videoPath`) whose payload object is present in the store; a
dangling metadata-only video is skipped, never surfaced. -/
theorem listVideos_payload_present (store : Store) (userEmail : String)
    (accountType schoolName : Option String) (classCodes : List String) (v : VideoEntry)
    (hv : v ∈ listVideos store userEmail accountType schoolName classCodes) :
    ∃ k, v.videoKey = some k ∧ (lookupObj store k).isSome = true := by
  obtain ⟨item, -, hp⟩ :=
    mem_listVideos_inv store userEmail accountType schoolName classCodes v hv
  exact (processVideoItem_some_inv store accountType schoolName classCodes item v hp).2.2

/-- Witness for C6: on a store with one good video, one dangling
metadata-only record and one unparseable object, `listVideos` surfaces
exactly the good entry, and its payload key is present. -/
theorem listVideos_payload_present_witness :
    mixedEntry ∈ listVideos mixedStore "a@b.com" (some "student") (some "Sch") ["7A"] ∧
    (∃ k, mixedEntry.videoKey = some k ∧ (lookupObj mixedStore k).isSome = true) :=
  ⟨by decide,
   listVideos_payload_present mixedStore "a@b.com" (some "student") (some "Sch") ["7A"]
      mixedEntry (by decide)⟩

/-- C7: `listVideos` never throws — it is total and returns a list.  Any
failure of its body is swallowed into the empty list (first conjunct); in
particular an invalid or missing account type yields the empty list (second
conjunct); and per-item failures are skips, never surfaced: every returned
entry comes from a stored object that parsed as video metadata, so an
object whose bytes do not parse contributes nothing (third conjunct). -/
theorem listVideos_silent_failure :
    (∀ (store : Store) (userEmail : String) (accountType schoolName : Option String)
      (classCodes : List String) (e : String),
      listVideosBody store userEmail accountType schoolName classCodes = Except.error e →
      listVideos store userEmail accountType schoolName classCodes = []) ∧
    (∀ (store : Store) (userEmail : String) (accountType schoolName : Option String)
      (classCodes : List String),
      accountType ≠ some "student" → accountType ≠ some "teacher" →
      listVideos store userEmail accountType schoolName classCodes = []) ∧
    (∀ (store : Store) (userEmail : String) (accountType schoolName : Option String)
      (classCodes : List String) (v : VideoEntry),
      v ∈ listVideos store userEmail accountType schoolName classCodes →
      ∃ o, (v.metadataKey, o) ∈ store ∧ (parseVideoMeta o).isSome = true) := by
  refine ⟨?_, ?_, ?_⟩
  · intro store userEmail accountType schoolName classCodes e h
    unfold listVideos
    rw [h]
  · intro store userEmail accountType schoolName classCodes h1 h2
    unfold listVideos listVideosBody
    rw [if_neg ?_]
    rintro (h | h)
    · exact h1 h
    · exact h2 h
  · intro store userEmail accountType schoolName classCodes v hv
    obtain ⟨item, hitem, hp⟩ :=
      mem_listVideos_inv store userEmail accountType schoolName classCodes v hv
    obtain ⟨hparse, hkey, -⟩ :=
      processVideoItem_some_inv store accountType schoolName classCodes item v hp
    refine ⟨item.2, ?_, hparse⟩
    rw [hkey]
    exact hitem

/-- Witness for C7: a whole-listing failure (account type "boss"), the
`undefined` account type of one-argument call sites, and a per-item skip on
`mixedStore` (whose unparseable object is never surfaced). -/
theorem listVideos_silent_failure_witness :
    listVideos annStore "x" (some "boss") none [] = [] ∧
    listVideos mixedStore "a@b.com" none none [] = [] ∧
    (∃ o, (mixedEntry.metadataKey, o) ∈ mixedStore ∧ (parseVideoMeta o).isSome = true) :=
  ⟨listVideos_silent_failure.1 annStore "x" (some "boss") none [] "Invalid account type"
      (by decide),
   listVideos_silent_failure.2.1 mixedStore "a@b.com" none none [] (by decide) (by decide),
   listVideos_silent_failure.2.2 mixedStore "a@b.com" (some "student") (some "Sch") ["7A"]
      mixedEntry (by decide)⟩

/-- C8 counterexample: for a user whose `classCodesArray` is `["7A"]`,
adding class code "7A" and then deleting it leaves the array empty, not
`["7A"]`: `add` appended a duplicate and `delete` removed both occurrences,
so the add/delete round trip does not restore the original array. -/
theorem classcode_roundtrip_counterexample :
    annUser.classCodesArray = some ["7A"] ∧
    lookupObj (updateUser "a@b.com" "7A" "delete"
        (updateUser "a@b.com" "7A" "add" annOnlyStore).2).2 (userKey "a@b.com") =
      some (Obj.userObj { annUser with classCodesArray := some [] }) ∧
    some ([] : List String) ≠ some ["7A"] := by decide

theorem updateUser_add_eq (store : Store) (e x : String) (u : User)
    (hu : lookupObj store (userKey e) = some (Obj.userObj u)) :
    updateUser e x "add" store =
      (Except.ok "Class code added successfully!",
       putObj store (userKey e)
         (Obj.userObj
           { u with classCodesArray := some (u.classCodesArray.getD [] ++ [x]) })) := by
  unfold updateUser
  rw [hu]
  dsimp only
  rw [if_pos rfl]

theorem updateUser_delete_eq (store : Store) (e x : String) (u : User) (arr : List String)
    (hu : lookupObj store (userKey e) = some (Obj.userObj u))
    (harr : u.classCodesArray = some arr)
    (hcont : (arr.contains x) = true) :
    updateUser e x "delete" store =
      (Except.ok "Class code deleted successfully!",
       putObj store (userKey e)
         (Obj.userObj
           { u with classCodesArray := some (arr.filter (fun code => code != x)) })) := by
  unfold updateUser
  rw [hu]
  dsimp only
  rw [if_neg (by decide), if_pos rfl, harr]
  dsimp only
  rw [if_pos hcont]

/-- C8 amended: the add/delete round trip on class code `x` restores the
stored user's `classCodesArray` provided `x` was not already present in it
(when `x` was present, `delete` removes the pre-existing occurrences too,
and an absent array field becomes an empty array rather than staying
absent). -/
theorem classcode_roundtrip_restores (store : Store) (e x : String) (u : User)
    (arr : List String)
    (hu : lookupObj store (userKey e) = some (Obj.userObj u))
    (harr : u.classCodesArray = some arr)
    (hx : x ∉ arr) :
    (updateUser e x "add" store).1 = Except.ok "Class code added successfully!" ∧
    (updateUser e x "delete" (updateUser e x "add" store).2).1 =
      Except.ok "Class code deleted successfully!" ∧
    lookupObj (updateUser e x "delete" (updateUser e x "add" store).2).2 (userKey e) =
      some (Obj.userObj u) := by
  have hadd : updateUser e x "add" store =
      (Except.ok "Class code added successfully!",
       putObj store (userKey e)
         (Obj.userObj { u with classCodesArray := some (arr ++ [x]) })) := by
    have h0 := updateUser_add_eq store e x u hu
    rw [harr, Option.getD_some] at h0
    exact h0
  have hlook1 : lookupObj (updateUser e x "add" store).2 (userKey e) =
      some (Obj.userObj { u with classCodesArray := some (arr ++ [x]) }) := by
    rw [hadd]
    exact lookupObj_putObj store (userKey e)
      (Obj.userObj { u with classCodesArray := some (arr ++ [x]) })
  have hcont : ((arr ++ [x]).contains x) = true := by
    simp [List.contains_iff_exists_mem_beq]
  have hfilt : (arr ++ [x]).filter (fun code => code != x) = arr := by
    rw [List.filter_append]
    have h1 : arr.filter (fun code => code != x) = arr :=
      List.filter_eq_self.mpr (fun a ha => bne_iff_ne.mpr (fun hax => hx (hax ▸ ha)))
    have h2 : [x].filter (fun code => code != x) = ([] : List String) := by simp
    rw [h1, h2, List.append_nil]
  have huu : ({ u with classCodesArray := some arr } : User) = u := by
    rw [← harr]
  have hdel : updateUser e x "delete" (updateUser e x "add" store).2 =
      (Except.ok "Class code deleted successfully!",
       putObj (updateUser e x "add" store).2 (userKey e) (Obj.userObj u)) := by
    have h1 := updateUser_delete_eq (updateUser e x "add" store).2 e x
      { u with classCodesArray := some (arr ++ [x]) } (arr ++ [x]) hlook1 rfl hcont
    rw [hfilt] at h1
    dsimp only at h1
    rw [huu] at h1
    exact h1
  refine ⟨by rw [hadd], by rw [hdel], ?_⟩
  rw [hdel]
  exact lookupObj_putObj (updateUser e x "add" store).2 (userKey e) (Obj.userObj u)

/-- Witness for C8 amended: adding then deleting the fresh class code "9C"
restores `annUser`'s record exactly. -/
theorem classcode_roundtrip_restores_witness :
    (updateUser "a@b.com" "9C" "add" annOnlyStore).1 =
      Except.ok "Class code added successfully!" ∧
    (updateUser "a@b.com" "9C" "delete"
        (updateUser "a@b.com" "9C" "add" annOnlyStore).2).1 =
      Except.ok "Class code deleted successfully!" ∧
    lookupObj (updateUser "a@b.com" "9C" "delete"
        (updateUser "a@b.com" "9C" "add" annOnlyStore).2).2 (userKey "a@b.com") =
      some (Obj.userObj annUser) :=
  classcode_roundtrip_restores annOnlyStore "a@b.com" "9C" annUser ["7A"]
    (by decide) (by decide) (by decide)

/-- C10: `updateUser` with action `add` appends the class code to
`classCodesArray` unconditionally — also when it is already present, so the
array can hold duplicates — and action `delete` removes every element equal
to the class code at once (the deleted code is no longer in the resulting
array at all). -/
theorem updateUser_add_appends_delete_removes_all :
    (∀ (store : Store) (e x : String) (u : User),
      lookupObj store (userKey e) = some (Obj.userObj u) →
      updateUser e x "add" store =
        (Except.ok "Class code added successfully!",
         putObj store (userKey e)
           (Obj.userObj
             { u with classCodesArray := some (u.classCodesArray.getD [] ++ [x]) }))) ∧
    (∀ (store : Store) (e x : String) (u : User) (arr : List String),
      lookupObj store (userKey e) = some (Obj.userObj u) →
      u.classCodesArray = some arr → x ∈ arr →
      updateUser e x "delete" store =
        (Except.ok "Class code deleted successfully!",
         putObj store (userKey e)
           (Obj.userObj
             { u with classCodesArray := some (arr.filter (fun code => code != x)) })) ∧
      x ∉ arr.filter (fun code => code != x)) := by
  constructor
  · intro store e x u hu
    exact updateUser_add_eq store e x u hu
  · intro store e x u arr hu harr hx
    have hcont : (arr.contains x) = true := by
      simp only [List.contains_iff_exists_mem_beq]
      exact ⟨x, hx, by simp⟩
    refine ⟨updateUser_delete_eq store e x u arr hu harr hcont, ?_⟩
    intro hmem
    have hne := (List.mem_filter.mp hmem).2
    simp at hne

/-- Witness for C10: with `classCodesArray = ["7A"]`, adding "7A" again
yields `["7A", "7A"]` (a duplicate), and deleting "7A" empties the array
(both occurrences removed at once). -/
theorem updateUser_add_appends_delete_removes_all_witness :
    updateUser "a@b.com" "7A" "add" annOnlyStore =
      (Except.ok "Class code added successfully!",
       putObj annOnlyStore (userKey "a@b.com")
         (Obj.userObj { annUser with classCodesArray := some ["7A", "7A"] })) ∧
    (updateUser "a@b.com" "7A" "delete" annOnlyStore =
      (Except.ok "Class code deleted successfully!",
       putObj annOnlyStore (userKey "a@b.com")
         (Obj.userObj { annUser with classCodesArray := some [] })) ∧
     "7A" ∉ (["7A"].filter (fun code => code != "7A"))) :=
  ⟨updateUser_add_appends_delete_removes_all.1 annOnlyStore "a@b.com" "7A" annUser
      (by decide),
   updateUser_add_appends_delete_removes_all.2 annOnlyStore "a@b.com" "7A" annUser ["7A"]
      (by decide) (by decide) (by decide)⟩
